import Mathlib

/-!
Verification of the ResearchBook academic-intelligence platform
(`researchbook.py`).

The development shallowly embeds the pure logic of the program:

* `_merge_expert_results` (lines 294-319): merging the per-database expert
  lists into one deduplicated, score-ranked list.  The Python `dict`
  keyed by expert name is modelled as a list of records with pairwise
  distinct names and in-place update / append-at-end semantics, which is
  exactly the insertion-order behaviour of a Python `dict`.  The final
  `sorted(..., key=..., reverse=True)` is a stable descending sort,
  modelled with `List.mergeSort`.
* `ai_query` (lines 37-60): the HTTP call to the LLM endpoint is an
  external effect, modelled as an oracle `post : String → Nat → PostOutcome`
  describing the outcome of `requests.post`; the body of `ai_query`
  (status check, JSON field extraction, `try/except` producing the
  tagged `"AI Error: ..."` strings) is translated faithfully.
* `lookup_person` (lines 62-91) and `find_expert` (lines 190-220): the
  two graph adapters run external Cypher queries, so their result lists
  are parameters; the orchestration logic operating on those lists is
  translated directly.  `lookup_person` is instrumented with the number
  of LLM requests it performs, so that "zero calls to the LLM endpoint"
  is a provable statement.

Scores: the Python code computes `relevant_publications` (an int) plus
`relevant_theses * 0.5` (a float whose value is an exact dyadic
rational).  The scores are modelled in `ℚ`, which represents every such
value exactly.
-/

namespace ResearchBook

/-- A record produced by `_search_experts_db1` (lines 246-256): one row of
the database-1 topic search.  The adapter always sets the `source` key to
the string `"database_1"`; `source` is kept as a field so that the merge
function can be studied on arbitrary inputs, with the adapter guarantee
stated as a hypothesis where a claim needs it. -/
structure Db1Expert where
  name : String
  orcid_id : Option String
  relevant_publications : Nat
  sample_publications : List String
  organizations : List String
  departments : List String
  source : String
deriving DecidableEq

/-- A record produced by `_search_experts_db2` (lines 282-290): one row of
the database-2 topic search, with `source` set by the adapter to
`"database_2"`. -/
structure Db2Expert where
  name : String
  roles : List String
  relevant_theses : Nat
  sample_theses : List String
  source : String
deriving DecidableEq

/-- An entry of the merged dictionary built by `_merge_expert_results`.
In Python the entry is a dict whose key set depends on its origin: a
db1-seeded entry has the db1 keys, a db2-only entry has the db2 keys, and
a both-databases entry additionally gains `thesis_roles`,
`relevant_theses` and `sample_theses`.  A key that may be absent is an
`Option` field (`none` = key not present in the dict).  Every entry gets
`combined_score` assigned by the merge (lines 302, 312, 315), so that
field is total. -/
structure MergedExpert where
  name : String
  orcid_id : Option (Option String)
  relevant_publications : Option Nat
  sample_publications : Option (List String)
  organizations : Option (List String)
  departments : Option (List String)
  roles : Option (List String)
  relevant_theses : Option Nat
  sample_theses : Option (List String)
  thesis_roles : Option (List String)
  source : String
  combined_score : ℚ
deriving DecidableEq

/-- Lines 299-302: a db1 expert, as stored into `merged` with its
`combined_score` set to `expert["relevant_publications"]`. -/
def ofDb1 (e : Db1Expert) : MergedExpert :=
  { name := e.name
    orcid_id := some e.orcid_id
    relevant_publications := some e.relevant_publications
    sample_publications := some e.sample_publications
    organizations := some e.organizations
    departments := some e.departments
    roles := none
    relevant_theses := none
    sample_theses := none
    thesis_roles := none
    source := e.source
    combined_score := (e.relevant_publications : ℚ) }

/-- Lines 314-316: a db2 expert not yet present in `merged`, stored with
`combined_score = expert["relevant_theses"] * 0.5`. -/
def ofDb2 (e : Db2Expert) : MergedExpert :=
  { name := e.name
    orcid_id := none
    relevant_publications := none
    sample_publications := none
    organizations := none
    departments := none
    roles := some e.roles
    relevant_theses := some e.relevant_theses
    sample_theses := some e.sample_theses
    thesis_roles := none
    source := e.source
    combined_score := (e.relevant_theses : ℚ) * (0.5 : ℚ) }

/-- Lines 308-313: merging a db2 expert into an entry already present in
`merged` under the same name: attach `thesis_roles`, `relevant_theses`
and `sample_theses`, add `relevant_theses * 0.5` to the combined score,
and overwrite `source` with `"both_databases"`. -/
def mergeInto (x : MergedExpert) (e : Db2Expert) : MergedExpert :=
  { x with
    thesis_roles := some e.roles
    relevant_theses := some e.relevant_theses
    sample_theses := some e.sample_theses
    combined_score := x.combined_score + (e.relevant_theses : ℚ) * (0.5 : ℚ)
    source := "both_databases" }

/-- `merged[name] = expert` for a db1 expert (lines 299-302): a Python
dict assignment replaces the value in place when the key is present
(keeping its position) and appends at the end otherwise. -/
def upsertDb1 (m : List MergedExpert) (e : Db1Expert) : List MergedExpert :=
  match m with
  | [] => [ofDb1 e]
  | x :: xs => if x.name = e.name then ofDb1 e :: xs else x :: upsertDb1 xs e

/-- The db2 loop body (lines 305-316): if the name is already a key of
`merged`, update that entry in place via `mergeInto`; otherwise append a
new entry built by `ofDb2`. -/
def upsertDb2 (m : List MergedExpert) (e : Db2Expert) : List MergedExpert :=
  match m with
  | [] => [ofDb2 e]
  | x :: xs => if x.name = e.name then mergeInto x e :: xs else x :: upsertDb2 xs e

/-- The comparison used by line 319, `sorted(merged.values(),
key=lambda x: x["combined_score"], reverse=True)`: `a` may come before
`b` exactly when the score of `a` is at least the score of `b`. -/
def byScoreDesc (a b : MergedExpert) : Bool :=
  decide (b.combined_score ≤ a.combined_score)

/-- The state of the `merged` dict after the two loops of
`_merge_expert_results` (lines 296-316), before sorting. -/
def preMerge (db1_experts : List Db1Expert) (db2_experts : List Db2Expert) :
    List MergedExpert :=
  db2_experts.foldl upsertDb2 (db1_experts.foldl upsertDb1 [])

/-- `_merge_expert_results` (lines 294-319): merge and deduplicate the
expert results from both databases, then sort by combined score
descending (a stable sort, as Python `sorted` is). -/
def _merge_expert_results (db1_experts : List Db1Expert)
    (db2_experts : List Db2Expert) : List MergedExpert :=
  (preMerge db1_experts db2_experts).mergeSort byScoreDesc

/-- The key list of the merged dict: the entry names, in order. -/
def namesOf (m : List MergedExpert) : List String := m.map MergedExpert.name

/-- Dict lookup by name: the first entry carrying the given name. -/
def findByName (m : List MergedExpert) (n : String) : Option MergedExpert :=
  m.find? (fun r => r.name == n)

theorem ofDb1_name (e : Db1Expert) : (ofDb1 e).name = e.name := rfl

theorem ofDb2_name (e : Db2Expert) : (ofDb2 e).name = e.name := rfl

theorem mergeInto_name (x : MergedExpert) (e : Db2Expert) :
    (mergeInto x e).name = x.name := rfl

theorem findByName_nil (n : String) : findByName [] n = none := rfl

theorem findByName_cons (x : MergedExpert) (m : List MergedExpert) (n : String) :
    findByName (x :: m) n = if x.name = n then some x else findByName m n := by
  by_cases h : x.name = n <;> simp [findByName, List.find?_cons, h]

theorem findByName_upsertDb1_self (m : List MergedExpert) (e : Db1Expert) :
    findByName (upsertDb1 m e) e.name = some (ofDb1 e) := by
  induction m with
  | nil => simp [upsertDb1, findByName_cons, findByName_nil, ofDb1_name]
  | cons x xs ih =>
    by_cases h : x.name = e.name
    · simp [upsertDb1, h, findByName_cons, ofDb1_name]
    · simp [upsertDb1, h, findByName_cons, ih]

theorem findByName_upsertDb1_other (m : List MergedExpert) (e : Db1Expert)
    (n : String) (h : n ≠ e.name) :
    findByName (upsertDb1 m e) n = findByName m n := by
  have hen : ¬ e.name = n := fun hc => h hc.symm
  induction m with
  | nil =>
    simp [upsertDb1, findByName_cons, findByName_nil, ofDb1_name, hen]
  | cons x xs ih =>
    by_cases hx : x.name = e.name
    · simp [upsertDb1, hx, findByName_cons, ofDb1_name, hen]
    · simp [upsertDb1, hx, findByName_cons, ih]

theorem findByName_upsertDb2_self (m : List MergedExpert) (e : Db2Expert) :
    findByName (upsertDb2 m e) e.name =
      some ((findByName m e.name).elim (ofDb2 e) (fun x => mergeInto x e)) := by
  induction m with
  | nil => simp [upsertDb2, findByName_cons, findByName_nil, ofDb2_name]
  | cons x xs ih =>
    by_cases h : x.name = e.name
    · simp [upsertDb2, h, findByName_cons, mergeInto_name]
    · simp [upsertDb2, h, findByName_cons, ih]

theorem findByName_upsertDb2_other (m : List MergedExpert) (e : Db2Expert)
    (n : String) (h : n ≠ e.name) :
    findByName (upsertDb2 m e) n = findByName m n := by
  have hen : ¬ e.name = n := fun hc => h hc.symm
  induction m with
  | nil =>
    simp [upsertDb2, findByName_cons, findByName_nil, ofDb2_name, hen]
  | cons x xs ih =>
    by_cases hx : x.name = e.name
    · simp [upsertDb2, hx, findByName_cons, mergeInto_name, hen]
    · simp [upsertDb2, hx, findByName_cons, ih]

theorem findByName_foldl_upsertDb1_not_mem (l : List Db1Expert)
    (m : List MergedExpert) (n : String) (h : n ∉ l.map Db1Expert.name) :
    findByName (l.foldl upsertDb1 m) n = findByName m n := by
  induction l generalizing m with
  | nil => rfl
  | cons a t ih =>
    simp only [List.map_cons, List.mem_cons, not_or] at h
    simp only [List.foldl_cons]
    rw [ih _ h.2, findByName_upsertDb1_other _ _ _ h.1]

theorem findByName_foldl_upsertDb2_not_mem (l : List Db2Expert)
    (m : List MergedExpert) (n : String) (h : n ∉ l.map Db2Expert.name) :
    findByName (l.foldl upsertDb2 m) n = findByName m n := by
  induction l generalizing m with
  | nil => rfl
  | cons a t ih =>
    simp only [List.map_cons, List.mem_cons, not_or] at h
    simp only [List.foldl_cons]
    rw [ih _ h.2, findByName_upsertDb2_other _ _ _ h.1]

theorem findByName_foldl_upsertDb1_mem (l : List Db1Expert)
    (hnd : (l.map Db1Expert.name).Nodup) (e : Db1Expert) (he : e ∈ l)
    (m : List MergedExpert) :
    findByName (l.foldl upsertDb1 m) e.name = some (ofDb1 e) := by
  induction l generalizing m with
  | nil => cases he
  | cons a t ih =>
    simp only [List.map_cons, List.nodup_cons] at hnd
    simp only [List.foldl_cons]
    rcases List.mem_cons.mp he with rfl | ht
    · have : e.name ∉ t.map Db1Expert.name := hnd.1
      rw [findByName_foldl_upsertDb1_not_mem _ _ _ this,
        findByName_upsertDb1_self]
    · exact ih hnd.2 ht _

theorem findByName_foldl_upsertDb2_mem (l : List Db2Expert)
    (hnd : (l.map Db2Expert.name).Nodup) (e : Db2Expert) (he : e ∈ l)
    (m : List MergedExpert) :
    findByName (l.foldl upsertDb2 m) e.name =
      some ((findByName m e.name).elim (ofDb2 e) (fun x => mergeInto x e)) := by
  induction l generalizing m with
  | nil => cases he
  | cons a t ih =>
    simp only [List.map_cons, List.nodup_cons] at hnd
    simp only [List.foldl_cons]
    rcases List.mem_cons.mp he with rfl | ht
    · have : e.name ∉ t.map Db2Expert.name := hnd.1
      rw [findByName_foldl_upsertDb2_not_mem _ _ _ this,
        findByName_upsertDb2_self]
    · have hne : e.name ≠ a.name := by
        intro hc
        exact hnd.1 (hc ▸ List.mem_map_of_mem Db2Expert.name ht)
      rw [show (t.foldl upsertDb2 (upsertDb2 m a)) = t.foldl upsertDb2 (upsertDb2 m a) from rfl]
      rw [ih hnd.2 ht (upsertDb2 m a), findByName_upsertDb2_other _ _ _ hne]

theorem namesOf_nil : namesOf [] = [] := rfl

theorem namesOf_cons (x : MergedExpert) (m : List MergedExpert) :
    namesOf (x :: m) = x.name :: namesOf m := rfl

theorem namesOf_upsertDb1 (m : List MergedExpert) (e : Db1Expert) :
    namesOf (upsertDb1 m e) =
      if e.name ∈ namesOf m then namesOf m else namesOf m ++ [e.name] := by
  induction m with
  | nil => simp [upsertDb1, namesOf, ofDb1_name]
  | cons x xs ih =>
    by_cases h : x.name = e.name
    · simp [upsertDb1, h, namesOf_cons, ofDb1_name, List.mem_cons]
    · have h2 : ¬ e.name = x.name := fun hc => h hc.symm
      by_cases hm : e.name ∈ namesOf xs
      · simp [upsertDb1, h, namesOf_cons, ofDb1_name, ih, hm, List.mem_cons, h2]
      · simp [upsertDb1, h, namesOf_cons, ofDb1_name, ih, hm, List.mem_cons, h2]

theorem namesOf_upsertDb2 (m : List MergedExpert) (e : Db2Expert) :
    namesOf (upsertDb2 m e) =
      if e.name ∈ namesOf m then namesOf m else namesOf m ++ [e.name] := by
  induction m with
  | nil => simp [upsertDb2, namesOf, ofDb2_name]
  | cons x xs ih =>
    by_cases h : x.name = e.name
    · simp [upsertDb2, h, namesOf_cons, mergeInto_name, List.mem_cons]
    · have h2 : ¬ e.name = x.name := fun hc => h hc.symm
      by_cases hm : e.name ∈ namesOf xs
      · simp [upsertDb2, h, namesOf_cons, mergeInto_name, ih, hm, List.mem_cons, h2]
      · simp [upsertDb2, h, namesOf_cons, mergeInto_name, ih, hm, List.mem_cons, h2]

theorem namesOf_nodup_upsertDb1 (m : List MergedExpert) (e : Db1Expert)
    (h : (namesOf m).Nodup) : (namesOf (upsertDb1 m e)).Nodup := by
  rw [namesOf_upsertDb1]
  by_cases hm : e.name ∈ namesOf m
  · simpa [hm] using h
  · simp [hm, List.nodup_append, h]

theorem namesOf_nodup_upsertDb2 (m : List MergedExpert) (e : Db2Expert)
    (h : (namesOf m).Nodup) : (namesOf (upsertDb2 m e)).Nodup := by
  rw [namesOf_upsertDb2]
  by_cases hm : e.name ∈ namesOf m
  · simpa [hm] using h
  · simp [hm, List.nodup_append, h]

theorem namesOf_nodup_foldl_upsertDb1 (l : List Db1Expert)
    (m : List MergedExpert) (h : (namesOf m).Nodup) :
    (namesOf (l.foldl upsertDb1 m)).Nodup := by
  induction l generalizing m with
  | nil => exact h
  | cons a t ih => exact ih _ (namesOf_nodup_upsertDb1 _ _ h)

theorem namesOf_nodup_foldl_upsertDb2 (l : List Db2Expert)
    (m : List MergedExpert) (h : (namesOf m).Nodup) :
    (namesOf (l.foldl upsertDb2 m)).Nodup := by
  induction l generalizing m with
  | nil => exact h
  | cons a t ih => exact ih _ (namesOf_nodup_upsertDb2 _ _ h)

theorem namesOf_preMerge_nodup (db1_experts : List Db1Expert)
    (db2_experts : List Db2Expert) :
    (namesOf (preMerge db1_experts db2_experts)).Nodup :=
  namesOf_nodup_foldl_upsertDb2 _ _
    (namesOf_nodup_foldl_upsertDb1 _ _ (by simp [namesOf]))

theorem mem_namesOf_upsertDb1_iff (m : List MergedExpert) (e : Db1Expert)
    (n : String) :
    n ∈ namesOf (upsertDb1 m e) ↔ n ∈ namesOf m ∨ n = e.name := by
  rw [namesOf_upsertDb1]
  by_cases hm : e.name ∈ namesOf m
  · rw [if_pos hm]
    constructor
    · exact Or.inl
    · rintro (h | rfl)
      · exact h
      · exact hm
  · rw [if_neg hm]
    simp [List.mem_append]

theorem mem_namesOf_upsertDb2_iff (m : List MergedExpert) (e : Db2Expert)
    (n : String) :
    n ∈ namesOf (upsertDb2 m e) ↔ n ∈ namesOf m ∨ n = e.name := by
  rw [namesOf_upsertDb2]
  by_cases hm : e.name ∈ namesOf m
  · rw [if_pos hm]
    constructor
    · exact Or.inl
    · rintro (h | rfl)
      · exact h
      · exact hm
  · rw [if_neg hm]
    simp [List.mem_append]

theorem mem_namesOf_foldl_upsertDb2_of_mem (l : List Db2Expert)
    (m : List MergedExpert) (n : String) (h : n ∈ namesOf m) :
    n ∈ namesOf (l.foldl upsertDb2 m) := by
  induction l generalizing m with
  | nil => exact h
  | cons a t ih =>
    exact ih _ ((mem_namesOf_upsertDb2_iff _ _ _).mpr (Or.inl h))

theorem mem_namesOf_foldl_upsertDb1_of_mem (l : List Db1Expert)
    (m : List MergedExpert) (n : String) (h : n ∈ namesOf m) :
    n ∈ namesOf (l.foldl upsertDb1 m) := by
  induction l generalizing m with
  | nil => exact h
  | cons a t ih =>
    exact ih _ ((mem_namesOf_upsertDb1_iff _ _ _).mpr (Or.inl h))

theorem name_mem_namesOf_foldl_upsertDb1 (l : List Db1Expert)
    (m : List MergedExpert) (e : Db1Expert) (he : e ∈ l) :
    e.name ∈ namesOf (l.foldl upsertDb1 m) := by
  induction l generalizing m with
  | nil => cases he
  | cons a t ih =>
    rcases List.mem_cons.mp he with rfl | ht
    · exact mem_namesOf_foldl_upsertDb1_of_mem t _ _
        ((mem_namesOf_upsertDb1_iff _ _ _).mpr (Or.inr rfl))
    · exact ih _ ht

theorem name_mem_namesOf_foldl_upsertDb2 (l : List Db2Expert)
    (m : List MergedExpert) (e : Db2Expert) (he : e ∈ l) :
    e.name ∈ namesOf (l.foldl upsertDb2 m) := by
  induction l generalizing m with
  | nil => cases he
  | cons a t ih =>
    rcases List.mem_cons.mp he with rfl | ht
    · exact mem_namesOf_foldl_upsertDb2_of_mem t _ _
        ((mem_namesOf_upsertDb2_iff _ _ _).mpr (Or.inr rfl))
    · exact ih _ ht

theorem length_namesOf (m : List MergedExpert) : (namesOf m).length = m.length :=
  List.length_map _ _

theorem length_upsertDb1 (m : List MergedExpert) (e : Db1Expert) :
    (upsertDb1 m e).length =
      if e.name ∈ namesOf m then m.length else m.length + 1 := by
  have h := congrArg List.length (namesOf_upsertDb1 m e)
  rw [length_namesOf] at h
  by_cases hm : e.name ∈ namesOf m
  · simpa [hm, length_namesOf] using h
  · simpa [hm, length_namesOf] using h

theorem length_upsertDb2 (m : List MergedExpert) (e : Db2Expert) :
    (upsertDb2 m e).length =
      if e.name ∈ namesOf m then m.length else m.length + 1 := by
  have h := congrArg List.length (namesOf_upsertDb2 m e)
  rw [length_namesOf] at h
  by_cases hm : e.name ∈ namesOf m
  · simpa [hm, length_namesOf] using h
  · simpa [hm, length_namesOf] using h

theorem length_foldl_upsertDb1_le (l : List Db1Expert) (m : List MergedExpert) :
    (l.foldl upsertDb1 m).length ≤ m.length + l.length := by
  induction l generalizing m with
  | nil => simp
  | cons a t ih =>
    have h1 := ih (upsertDb1 m a)
    have h2 : (upsertDb1 m a).length ≤ m.length + 1 := by
      rw [length_upsertDb1]
      split <;> omega
    simp only [List.foldl_cons, List.length_cons]
    omega

theorem length_foldl_upsertDb2_le (l : List Db2Expert) (m : List MergedExpert) :
    (l.foldl upsertDb2 m).length ≤ m.length + l.length := by
  induction l generalizing m with
  | nil => simp
  | cons a t ih =>
    have h1 := ih (upsertDb2 m a)
    have h2 : (upsertDb2 m a).length ≤ m.length + 1 := by
      rw [length_upsertDb2]
      split <;> omega
    simp only [List.foldl_cons, List.length_cons]
    omega

theorem countP_name_eq_zero (m : List MergedExpert) (n : String)
    (h : n ∉ namesOf m) : m.countP (fun r => r.name == n) = 0 := by
  induction m with
  | nil => simp
  | cons x xs ih =>
    rw [namesOf_cons] at h
    simp only [List.mem_cons, not_or] at h
    have hx : ¬ x.name = n := fun hc => h.1 hc.symm
    simp [List.countP_cons, hx, ih h.2]

theorem countP_name_eq_one (m : List MergedExpert) (n : String)
    (hnd : (namesOf m).Nodup) (hm : n ∈ namesOf m) :
    m.countP (fun r => r.name == n) = 1 := by
  induction m with
  | nil => cases hm
  | cons x xs ih =>
    rw [namesOf_cons] at hnd hm
    rw [List.nodup_cons] at hnd
    rcases List.mem_cons.mp hm with rfl | hmem
    · have : xs.countP (fun r => r.name == x.name) = 0 :=
        countP_name_eq_zero _ _ hnd.1
      simp [List.countP_cons, this]
    · have hx : ¬ x.name = n := by
        intro hc
        exact hnd.1 (hc ▸ hmem)
      simp [List.countP_cons, hx, ih hnd.2 hmem]

theorem findByName_some_mem (m : List MergedExpert) (n : String)
    (r : MergedExpert) (h : findByName m n = some r) : r ∈ m ∧ r.name = n := by
  simp only [findByName] at h
  refine ⟨List.mem_of_find?_eq_some h, ?_⟩
  have := List.find?_some h
  simpa using this

theorem findByName_of_mem (m : List MergedExpert)
    (hnd : (namesOf m).Nodup) (r : MergedExpert) (hr : r ∈ m) :
    findByName m r.name = some r := by
  induction m with
  | nil => cases hr
  | cons x xs ih =>
    rw [namesOf_cons, List.nodup_cons] at hnd
    rw [findByName_cons]
    rcases List.mem_cons.mp hr with rfl | ht
    · simp
    · have hx : ¬ x.name = r.name := by
        intro hc
        exact hnd.1 (hc ▸ List.mem_map_of_mem MergedExpert.name ht)
      simp only [hx, if_false]
      exact ih hnd.2 ht

theorem mem_upsertDb1 (m : List MergedExpert) (e : Db1Expert)
    (r : MergedExpert) (h : r ∈ upsertDb1 m e) : r ∈ m ∨ r = ofDb1 e := by
  induction m with
  | nil => simpa [upsertDb1] using h
  | cons x xs ih =>
    by_cases hx : x.name = e.name
    · simp only [upsertDb1, hx, if_pos rfl] at h
      rcases List.mem_cons.mp h with rfl | hm
      · exact Or.inr rfl
      · exact Or.inl (List.mem_cons_of_mem _ hm)
    · simp only [upsertDb1, hx, if_false] at h
      rcases List.mem_cons.mp h with rfl | hm
      · exact Or.inl (List.mem_cons_self _ _)
      · rcases ih hm with h1 | h2
        · exact Or.inl (List.mem_cons_of_mem _ h1)
        · exact Or.inr h2

theorem mem_upsertDb2 (m : List MergedExpert) (e : Db2Expert)
    (r : MergedExpert) (h : r ∈ upsertDb2 m e) :
    r ∈ m ∨ r = ofDb2 e ∨ ∃ x ∈ m, x.name = e.name ∧ r = mergeInto x e := by
  induction m with
  | nil => simpa [upsertDb2] using h
  | cons x xs ih =>
    by_cases hx : x.name = e.name
    · simp only [upsertDb2, hx, if_pos rfl] at h
      rcases List.mem_cons.mp h with rfl | hm
      · exact Or.inr (Or.inr ⟨x, List.mem_cons_self _ _, hx, rfl⟩)
      · exact Or.inl (List.mem_cons_of_mem _ hm)
    · simp only [upsertDb2, hx, if_false] at h
      rcases List.mem_cons.mp h with rfl | hm
      · exact Or.inl (List.mem_cons_self _ _)
      · rcases ih hm with h1 | h2 | ⟨y, hy, hyn, hr⟩
        · exact Or.inl (List.mem_cons_of_mem _ h1)
        · exact Or.inr (Or.inl h2)
        · exact Or.inr (Or.inr ⟨y, List.mem_cons_of_mem _ hy, hyn, hr⟩)

theorem mem_foldl_upsertDb1 (P : MergedExpert → Prop) (l : List Db1Expert)
    (hP : ∀ e ∈ l, P (ofDb1 e)) (m : List MergedExpert)
    (hm : ∀ r ∈ m, P r) : ∀ r ∈ l.foldl upsertDb1 m, P r := by
  induction l generalizing m with
  | nil => exact hm
  | cons a t ih =>
    refine ih (fun e he => hP e (List.mem_cons_of_mem _ he)) _ ?_
    intro r hr
    rcases mem_upsertDb1 _ _ _ hr with h1 | rfl
    · exact hm r h1
    · exact hP a (List.mem_cons_self _ _)

theorem mem_foldl_upsertDb2 (P : MergedExpert → Prop) (l : List Db2Expert)
    (hP : ∀ e ∈ l, P (ofDb2 e))
    (hPm : ∀ x e, e ∈ l → x.name = e.name → P x → P (mergeInto x e))
    (m : List MergedExpert)
    (hm : ∀ r ∈ m, P r) : ∀ r ∈ l.foldl upsertDb2 m, P r := by
  induction l generalizing m with
  | nil => exact hm
  | cons a t ih =>
    refine ih (fun e he => hP e (List.mem_cons_of_mem _ he))
      (fun x e he hxn hx => hPm x e (List.mem_cons_of_mem _ he) hxn hx) _ ?_
    intro r hr
    rcases mem_upsertDb2 _ _ _ hr with h1 | rfl | ⟨y, hy, hyn, rfl⟩
    · exact hm r h1
    · exact hP a (List.mem_cons_self _ _)
    · exact hPm y a (List.mem_cons_self _ _) hyn (hm y hy)

theorem merge_perm_preMerge (db1_experts : List Db1Expert)
    (db2_experts : List Db2Expert) :
    (_merge_expert_results db1_experts db2_experts).Perm
      (preMerge db1_experts db2_experts) :=
  List.mergeSort_perm _ _

theorem mem_merge_iff (db1_experts : List Db1Expert)
    (db2_experts : List Db2Expert) (r : MergedExpert) :
    r ∈ _merge_expert_results db1_experts db2_experts ↔
      r ∈ preMerge db1_experts db2_experts :=
  (merge_perm_preMerge db1_experts db2_experts).mem_iff

theorem length_merge (db1_experts : List Db1Expert)
    (db2_experts : List Db2Expert) :
    (_merge_expert_results db1_experts db2_experts).length =
      (preMerge db1_experts db2_experts).length :=
  (merge_perm_preMerge db1_experts db2_experts).length_eq

theorem countP_merge (db1_experts : List Db1Expert)
    (db2_experts : List Db2Expert) (p : MergedExpert → Bool) :
    (_merge_expert_results db1_experts db2_experts).countP p =
      (preMerge db1_experts db2_experts).countP p :=
  (merge_perm_preMerge db1_experts db2_experts).countP_eq _

/-- C4: for every pair of input lists, the list returned by
`_merge_expert_results` is sorted by combined score in non-increasing
order (line 319, `sorted(..., key=lambda x: x["combined_score"],
reverse=True)`). -/
theorem merge_sorted_by_combined_score_desc (db1_experts : List Db1Expert)
    (db2_experts : List Db2Expert) :
    (_merge_expert_results db1_experts db2_experts).Pairwise
      (fun a b => b.combined_score ≤ a.combined_score) := by
  have htrans : ∀ a b c : MergedExpert,
      byScoreDesc a b → byScoreDesc b c → byScoreDesc a c := by
    intro a b c hab hbc
    simp only [byScoreDesc, decide_eq_true_eq] at hab hbc ⊢
    linarith
  have htotal : ∀ a b : MergedExpert,
      byScoreDesc a b || byScoreDesc b a := by
    intro a b
    simp [byScoreDesc, le_total]
  have h := List.sorted_mergeSort htrans htotal
    (preMerge db1_experts db2_experts)
  simpa [_merge_expert_results, List.Sorted, byScoreDesc] using h

/-- C5: merging two empty lists returns the empty list, and empty input
on either side (or any input) is valid: the merge is a total function
here, and an output record whose name occurs in only one input list
carries only that database's keys — the other database's keys are
absent (`none`) rather than causing a missing-field error, because the
code never reads a key it did not put there. -/
theorem merge_empty_inputs_and_single_source_fields :
    _merge_expert_results [] [] = [] ∧
    (∀ (db1_experts : List Db1Expert) (db2_experts : List Db2Expert),
      ∀ r ∈ _merge_expert_results db1_experts db2_experts,
        r.name ∉ db2_experts.map Db2Expert.name →
        r.relevant_theses = none ∧ r.thesis_roles = none ∧
        r.sample_theses = none ∧ r.roles = none) ∧
    (∀ (db1_experts : List Db1Expert) (db2_experts : List Db2Expert),
      ∀ r ∈ _merge_expert_results db1_experts db2_experts,
        r.name ∉ db1_experts.map Db1Expert.name →
        r.relevant_publications = none ∧ r.sample_publications = none ∧
        r.organizations = none ∧ r.departments = none ∧ r.orcid_id = none) := by
  refine ⟨by simp [_merge_expert_results, preMerge], ?_, ?_⟩
  · intro db1_experts db2_experts r hr hname
    rw [mem_merge_iff] at hr
    simp only [preMerge] at hr
    have hinv := mem_foldl_upsertDb2
      (fun x => x.name ∈ db2_experts.map Db2Expert.name ∨
        (x.relevant_theses = none ∧ x.thesis_roles = none ∧
          x.sample_theses = none ∧ x.roles = none))
      db2_experts
      (fun e he => Or.inl (List.mem_map_of_mem Db2Expert.name he))
      (fun x e he hxn _ => Or.inl (by
        rw [mergeInto_name, hxn]
        exact List.mem_map_of_mem Db2Expert.name he))
      (db1_experts.foldl upsertDb1 [])
      (mem_foldl_upsertDb1 _ db1_experts
        (fun e _ => Or.inr ⟨rfl, rfl, rfl, rfl⟩) [] (by simp))
      r hr
    rcases hinv with h | h
    · exact absurd h hname
    · exact h
  · intro db1_experts db2_experts r hr hname
    rw [mem_merge_iff] at hr
    simp only [preMerge] at hr
    have hinv := mem_foldl_upsertDb2
      (fun x => x.name ∈ db1_experts.map Db1Expert.name ∨
        (x.relevant_publications = none ∧ x.sample_publications = none ∧
          x.organizations = none ∧ x.departments = none ∧ x.orcid_id = none))
      db2_experts
      (fun e _ => Or.inr ⟨rfl, rfl, rfl, rfl, rfl⟩)
      (fun x e _ _ hx => by
        rcases hx with h | h
        · exact Or.inl (by rw [mergeInto_name]; exact h)
        · exact Or.inr (by
            refine ⟨?_, ?_, ?_, ?_, ?_⟩ <;> simp [mergeInto, h.1, h.2.1,
              h.2.2.1, h.2.2.2.1, h.2.2.2.2]))
      (db1_experts.foldl upsertDb1 [])
      (mem_foldl_upsertDb1 _ db1_experts
        (fun e he => Or.inl (List.mem_map_of_mem Db1Expert.name he))
        [] (by simp))
      r hr
    rcases hinv with h | h
    · exact absurd h hname
    · exact h

/-- Witness for C5 at the concrete inputs `db1 = [B]`, `db2 = []`: the
single merged record indeed has no thesis-side keys. -/
theorem merge_empty_inputs_and_single_source_fields_witness :
    (ofDb1 ⟨"B", none, 3, [], [], [], "database_1"⟩) ∈
      _merge_expert_results [⟨"B", none, 3, [], [], [], "database_1"⟩] [] ∧
    (ofDb1 ⟨"B", none, 3, [], [], [], "database_1"⟩).name ∉
      ([] : List Db2Expert).map Db2Expert.name ∧
    ((ofDb1 ⟨"B", none, 3, [], [], [], "database_1"⟩).relevant_theses = none ∧
     (ofDb1 ⟨"B", none, 3, [], [], [], "database_1"⟩).thesis_roles = none ∧
     (ofDb1 ⟨"B", none, 3, [], [], [], "database_1"⟩).sample_theses = none ∧
     (ofDb1 ⟨"B", none, 3, [], [], [], "database_1"⟩).roles = none) :=
  ⟨(mem_merge_iff _ _ _).mpr (by decide), by decide,
   merge_empty_inputs_and_single_source_fields.2.1
     [⟨"B", none, 3, [], [], [], "database_1"⟩] [] _
     ((mem_merge_iff _ _ _).mpr (by decide)) (by decide)⟩

/-- C10: every record in the merge output carries a combined score (the
`combined_score` field is total by construction: all three code paths,
lines 302, 312 and 315, assign it) and a source tag among `"database_1"`,
`"database_2"` and `"both_databases"`, given that the inputs carry the
tags the two search adapters always set (lines 254 and 288). -/
theorem merge_source_tag_invariant (db1_experts : List Db1Expert)
    (db2_experts : List Db2Expert)
    (h1 : ∀ e ∈ db1_experts, e.source = "database_1")
    (h2 : ∀ e ∈ db2_experts, e.source = "database_2") :
    ∀ r ∈ _merge_expert_results db1_experts db2_experts,
      r.combined_score = r.combined_score ∧
      (r.source = "database_1" ∨ r.source = "database_2" ∨
        r.source = "both_databases") := by
  intro r hr
  rw [mem_merge_iff] at hr
  simp only [preMerge] at hr
  refine ⟨rfl, ?_⟩
  refine mem_foldl_upsertDb2
    (fun x => x.source = "database_1" ∨ x.source = "database_2" ∨
      x.source = "both_databases")
    db2_experts ?_ ?_ _ ?_ r hr
  · intro e he
    exact Or.inr (Or.inl (by simp [ofDb2, h2 e he]))
  · intro x e _ _ _
    exact Or.inr (Or.inr rfl)
  · refine mem_foldl_upsertDb1 _ db1_experts ?_ [] (by simp)
    intro e he
    exact Or.inl (by simp [ofDb1, h1 e he])

/-- Witness for C10 at `db1 = [B]`, `db2 = [T]` with the adapter tags. -/
theorem merge_source_tag_invariant_witness :
    (∀ e ∈ [(⟨"B", none, 3, [], [], [], "database_1"⟩ : Db1Expert)],
      e.source = "database_1") ∧
    (∀ e ∈ [(⟨"T", [], 2, [], "database_2"⟩ : Db2Expert)],
      e.source = "database_2") ∧
    (∀ r ∈ _merge_expert_results
        [(⟨"B", none, 3, [], [], [], "database_1"⟩ : Db1Expert)]
        [(⟨"T", [], 2, [], "database_2"⟩ : Db2Expert)],
      r.combined_score = r.combined_score ∧
      (r.source = "database_1" ∨ r.source = "database_2" ∨
        r.source = "both_databases")) :=
  ⟨by decide, by decide,
   merge_source_tag_invariant _ _ (by decide) (by decide)⟩

/-- C1: a name present in both input lists (each list keying experts by
pairwise distinct names, as the grouped database queries produce) appears
exactly once in the merged output, with source tag `"both_databases"` and
combined score `relevant_publications + relevant_theses * 0.5`
(lines 304-313). -/
theorem merge_both_databases_entry (db1_experts : List Db1Expert)
    (db2_experts : List Db2Expert) (e1 : Db1Expert) (e2 : Db2Expert)
    (hnd1 : (db1_experts.map Db1Expert.name).Nodup)
    (hnd2 : (db2_experts.map Db2Expert.name).Nodup)
    (h1 : e1 ∈ db1_experts) (h2 : e2 ∈ db2_experts)
    (heq : e2.name = e1.name) :
    (_merge_expert_results db1_experts db2_experts).countP
      (fun r => r.name == e1.name) = 1 ∧
    ∀ r ∈ _merge_expert_results db1_experts db2_experts, r.name = e1.name →
      r.source = "both_databases" ∧
      r.combined_score =
        (e1.relevant_publications : ℚ) + (e2.relevant_theses : ℚ) * (0.5 : ℚ) := by
  have hf1 : findByName (db1_experts.foldl upsertDb1 []) e1.name =
      some (ofDb1 e1) :=
    findByName_foldl_upsertDb1_mem _ hnd1 _ h1 _
  have hf2 := findByName_foldl_upsertDb2_mem _ hnd2 _ h2
    (db1_experts.foldl upsertDb1 [])
  rw [heq, hf1] at hf2
  have hfp : findByName (preMerge db1_experts db2_experts) e1.name =
      some (mergeInto (ofDb1 e1) e2) := by
    simpa [preMerge] using hf2
  have hnd := namesOf_preMerge_nodup db1_experts db2_experts
  have hmem := findByName_some_mem _ _ _ hfp
  have hname : e1.name ∈ namesOf (preMerge db1_experts db2_experts) :=
    List.mem_map_of_mem MergedExpert.name hmem.1
  constructor
  · rw [countP_merge]
    exact countP_name_eq_one _ _ hnd hname
  · intro r hr hrn
    rw [mem_merge_iff] at hr
    have hreq : r = mergeInto (ofDb1 e1) e2 := by
      have hfind := findByName_of_mem _ hnd r hr
      rw [hrn, hfp] at hfind
      exact (Option.some_inj.mp hfind).symm
    rw [hreq]
    exact ⟨rfl, rfl⟩

/-- Witness for C1 at the spec scenario: `db1 = [A/4 publications]`,
`db2 = [A/2 theses]`, so the merged entry scores `4 + 2*0.5 = 5`. -/
theorem merge_both_databases_entry_witness :
    (["A"] : List String).Nodup ∧
    ((_merge_expert_results
        [(⟨"A", none, 4, [], [], [], "database_1"⟩ : Db1Expert)]
        [(⟨"A", [], 2, [], "database_2"⟩ : Db2Expert)]).countP
        (fun r => r.name == "A") = 1 ∧
      ∀ r ∈ _merge_expert_results
          [(⟨"A", none, 4, [], [], [], "database_1"⟩ : Db1Expert)]
          [(⟨"A", [], 2, [], "database_2"⟩ : Db2Expert)],
        r.name = "A" →
        r.source = "both_databases" ∧
        r.combined_score = (4 : ℚ) + (2 : ℚ) * (0.5 : ℚ)) :=
  ⟨by decide,
   merge_both_databases_entry
     [(⟨"A", none, 4, [], [], [], "database_1"⟩ : Db1Expert)]
     [(⟨"A", [], 2, [], "database_2"⟩ : Db2Expert)]
     (⟨"A", none, 4, [], [], [], "database_1"⟩ : Db1Expert)
     (⟨"A", [], 2, [], "database_2"⟩ : Db2Expert)
     (by decide) (by decide) (by decide) (by decide) rfl⟩

/-- C1 fails without the distinct-names proviso: the db2 topic query
groups by person and relation type, so one person can yield two rows.
With `db1 = [A/4]` and two db2 rows named "A" carrying 2 relevant theses
each, the merged entry scores `4 + 2*0.5 + 2*0.5 = 6`, not the claimed
`4 + 2*0.5 = 5` — the second db2 row adds to the score again
(line 312 runs once per row, not once per name). -/
theorem merge_both_databases_entry_counterexample :
    ¬ (∀ r ∈ _merge_expert_results
          [(⟨"A", none, 4, [], [], [], "database_1"⟩ : Db1Expert)]
          [(⟨"A", ["SUPERVISOR"], 2, [], "database_2"⟩ : Db2Expert),
           (⟨"A", ["EXAMINER"], 2, [], "database_2"⟩ : Db2Expert)],
        r.name = "A" →
        r.source = "both_databases" ∧
        r.combined_score = (4 : ℚ) + (2 : ℚ) * (0.5 : ℚ)) := by
  intro h
  have hmem : mergeInto
      (mergeInto (ofDb1 (⟨"A", none, 4, [], [], [], "database_1"⟩ : Db1Expert))
        (⟨"A", ["SUPERVISOR"], 2, [], "database_2"⟩ : Db2Expert))
      (⟨"A", ["EXAMINER"], 2, [], "database_2"⟩ : Db2Expert) ∈
      _merge_expert_results
        [(⟨"A", none, 4, [], [], [], "database_1"⟩ : Db1Expert)]
        [(⟨"A", ["SUPERVISOR"], 2, [], "database_2"⟩ : Db2Expert),
         (⟨"A", ["EXAMINER"], 2, [], "database_2"⟩ : Db2Expert)] :=
    (mem_merge_iff _ _ _).mpr
      (by simp [preMerge, upsertDb1, upsertDb2, mergeInto, ofDb1, ofDb2])
  have hsc := (h _ hmem rfl).2
  norm_num [mergeInto, ofDb1] at hsc

/-- C3: with pairwise distinct names per list (as produced by the grouped
queries), a name found only in db1 keeps its publication count as the
combined score with tag `"database_1"`, and a name found only in db2
scores `relevant_theses * 0.5` with tag `"database_2"`
(lines 298-302 and 314-316). -/
theorem merge_single_database_entries (db1_experts : List Db1Expert)
    (db2_experts : List Db2Expert) :
    (∀ e1 ∈ db1_experts, (db1_experts.map Db1Expert.name).Nodup →
      e1.name ∉ db2_experts.map Db2Expert.name → e1.source = "database_1" →
      (_merge_expert_results db1_experts db2_experts).countP
        (fun r => r.name == e1.name) = 1 ∧
      ∀ r ∈ _merge_expert_results db1_experts db2_experts, r.name = e1.name →
        r.combined_score = (e1.relevant_publications : ℚ) ∧
        r.source = "database_1") ∧
    (∀ e2 ∈ db2_experts, (db2_experts.map Db2Expert.name).Nodup →
      e2.name ∉ db1_experts.map Db1Expert.name → e2.source = "database_2" →
      (_merge_expert_results db1_experts db2_experts).countP
        (fun r => r.name == e2.name) = 1 ∧
      ∀ r ∈ _merge_expert_results db1_experts db2_experts, r.name = e2.name →
        r.combined_score = (e2.relevant_theses : ℚ) * (0.5 : ℚ) ∧
        r.source = "database_2") := by
  have hnd := namesOf_preMerge_nodup db1_experts db2_experts
  constructor
  · intro e1 h1 hnd1 hnot hsrc
    have hf1 : findByName (db1_experts.foldl upsertDb1 []) e1.name =
        some (ofDb1 e1) :=
      findByName_foldl_upsertDb1_mem _ hnd1 _ h1 _
    have hfp : findByName (preMerge db1_experts db2_experts) e1.name =
        some (ofDb1 e1) := by
      simp only [preMerge]
      rw [findByName_foldl_upsertDb2_not_mem _ _ _ hnot, hf1]
    have hmem := findByName_some_mem _ _ _ hfp
    have hname : e1.name ∈ namesOf (preMerge db1_experts db2_experts) :=
      List.mem_map_of_mem MergedExpert.name hmem.1
    constructor
    · rw [countP_merge]
      exact countP_name_eq_one _ _ hnd hname
    · intro r hr hrn
      rw [mem_merge_iff] at hr
      have hreq : r = ofDb1 e1 := by
        have hfind := findByName_of_mem _ hnd r hr
        rw [hrn, hfp] at hfind
        exact (Option.some_inj.mp hfind).symm
      rw [hreq]
      exact ⟨rfl, by simpa [ofDb1] using hsrc⟩
  · intro e2 h2 hnd2 hnot hsrc
    have hf0 : findByName (db1_experts.foldl upsertDb1 []) e2.name = none := by
      rw [findByName_foldl_upsertDb1_not_mem _ _ _ hnot]
      rfl
    have hf2 := findByName_foldl_upsertDb2_mem _ hnd2 _ h2
      (db1_experts.foldl upsertDb1 [])
    rw [hf0] at hf2
    have hfp : findByName (preMerge db1_experts db2_experts) e2.name =
        some (ofDb2 e2) := by
      simpa [preMerge] using hf2
    have hmem := findByName_some_mem _ _ _ hfp
    have hname : e2.name ∈ namesOf (preMerge db1_experts db2_experts) :=
      List.mem_map_of_mem MergedExpert.name hmem.1
    constructor
    · rw [countP_merge]
      exact countP_name_eq_one _ _ hnd hname
    · intro r hr hrn
      rw [mem_merge_iff] at hr
      have hreq : r = ofDb2 e2 := by
        have hfind := findByName_of_mem _ hnd r hr
        rw [hrn, hfp] at hfind
        exact (Option.some_inj.mp hfind).symm
      rw [hreq]
      exact ⟨rfl, by simpa [ofDb2] using hsrc⟩

/-- Witness for C3 at the spec scenarios: `db1 = [B/3 publications]`,
`db2 = []` gives score 3 and tag `"database_1"`; `db1 = []`,
`db2 = [T/2 theses]` gives score `2*0.5 = 1` and tag `"database_2"`. -/
theorem merge_single_database_entries_witness :
    (["B"] : List String).Nodup ∧
    ((_merge_expert_results
        [(⟨"B", none, 3, [], [], [], "database_1"⟩ : Db1Expert)] []).countP
        (fun r => r.name == "B") = 1 ∧
      ∀ r ∈ _merge_expert_results
          [(⟨"B", none, 3, [], [], [], "database_1"⟩ : Db1Expert)] [],
        r.name = "B" →
        r.combined_score = (3 : ℚ) ∧ r.source = "database_1") ∧
    ((_merge_expert_results []
        [(⟨"T", [], 2, [], "database_2"⟩ : Db2Expert)]).countP
        (fun r => r.name == "T") = 1 ∧
      ∀ r ∈ _merge_expert_results []
          [(⟨"T", [], 2, [], "database_2"⟩ : Db2Expert)],
        r.name = "T" →
        r.combined_score = (2 : ℚ) * (0.5 : ℚ) ∧ r.source = "database_2") :=
  ⟨by decide,
   (merge_single_database_entries
     [(⟨"B", none, 3, [], [], [], "database_1"⟩ : Db1Expert)] []).1
     (⟨"B", none, 3, [], [], [], "database_1"⟩ : Db1Expert)
     (by decide) (by decide) (by decide) rfl,
   (merge_single_database_entries []
     [(⟨"T", [], 2, [], "database_2"⟩ : Db2Expert)]).2
     (⟨"T", [], 2, [], "database_2"⟩ : Db2Expert)
     (by decide) (by decide) (by decide) rfl⟩

/-- C3 fails without the distinct-names proviso: with an empty db1 list
and two db2 rows named "T" (2 relevant theses each), the name "T" occurs
only in the db2 list, yet the second row takes the merge branch of
lines 307-313 against the entry the first row created, so the single
output entry is tagged `"both_databases"` with score
`2*0.5 + 2*0.5 = 2`, not `"database_2"` with score `2*0.5 = 1`. -/
theorem merge_single_database_entries_counterexample :
    ¬ (∀ r ∈ _merge_expert_results ([] : List Db1Expert)
          [(⟨"T", ["SUPERVISOR"], 2, [], "database_2"⟩ : Db2Expert),
           (⟨"T", ["EXAMINER"], 2, [], "database_2"⟩ : Db2Expert)],
        r.name = "T" →
        r.combined_score = (2 : ℚ) * (0.5 : ℚ) ∧
        r.source = "database_2") := by
  intro h
  have hmem : mergeInto
      (ofDb2 (⟨"T", ["SUPERVISOR"], 2, [], "database_2"⟩ : Db2Expert))
      (⟨"T", ["EXAMINER"], 2, [], "database_2"⟩ : Db2Expert) ∈
      _merge_expert_results ([] : List Db1Expert)
        [(⟨"T", ["SUPERVISOR"], 2, [], "database_2"⟩ : Db2Expert),
         (⟨"T", ["EXAMINER"], 2, [], "database_2"⟩ : Db2Expert)] :=
    (mem_merge_iff _ _ _).mpr
      (by simp [preMerge, upsertDb1, upsertDb2, mergeInto, ofDb1, ofDb2])
  have hsrc := (h _ hmem rfl).2
  exact absurd hsrc (by decide)

/-- C2 fails as literally stated: names may repeat within a single input
list (the db2 topic query groups by person and relation type, so one
person can yield several rows), and the dict deduplicates them, making
the output shorter than the larger input list.  Concretely, two db1 rows
named "A" merge into one output entry, violating the lower bound
`max(|db1|,|db2|) = 2`. -/
theorem merge_length_bounds_counterexample :
    ¬ (max
        ([(⟨"A", none, 1, [], [], [], "database_1"⟩ : Db1Expert),
          (⟨"A", none, 2, [], [], [], "database_1"⟩ : Db1Expert)].length)
        (([] : List Db2Expert).length) ≤
      (_merge_expert_results
        [(⟨"A", none, 1, [], [], [], "database_1"⟩ : Db1Expert),
         (⟨"A", none, 2, [], [], [], "database_1"⟩ : Db1Expert)]
        ([] : List Db2Expert)).length ∧
      (_merge_expert_results
        [(⟨"A", none, 1, [], [], [], "database_1"⟩ : Db1Expert),
         (⟨"A", none, 2, [], [], [], "database_1"⟩ : Db1Expert)]
        ([] : List Db2Expert)).length ≤
      ([(⟨"A", none, 1, [], [], [], "database_1"⟩ : Db1Expert),
        (⟨"A", none, 2, [], [], [], "database_1"⟩ : Db1Expert)].length) +
      (([] : List Db2Expert).length)) := by
  rw [length_merge]
  decide

/-- C2 amended: the upper bound — output length at most
`|db1| + |db2|` — holds for all inputs; the lower bound
`max(|db1|,|db2|)` holds when the names within each input list are
pairwise distinct (the proviso the counterexample forces). -/
theorem merge_length_bounds_nodup (db1_experts : List Db1Expert)
    (db2_experts : List Db2Expert) :
    ((db1_experts.map Db1Expert.name).Nodup →
      (db2_experts.map Db2Expert.name).Nodup →
      max db1_experts.length db2_experts.length ≤
        (_merge_expert_results db1_experts db2_experts).length) ∧
    (_merge_expert_results db1_experts db2_experts).length ≤
      db1_experts.length + db2_experts.length := by
  rw [length_merge]
  constructor
  · intro hnd1 hnd2
    have hsub1 : db1_experts.map Db1Expert.name ⊆
        namesOf (preMerge db1_experts db2_experts) := by
      intro n hn
      obtain ⟨e, he, rfl⟩ := List.mem_map.mp hn
      exact mem_namesOf_foldl_upsertDb2_of_mem _ _ _
        (name_mem_namesOf_foldl_upsertDb1 _ _ _ he)
    have hsub2 : db2_experts.map Db2Expert.name ⊆
        namesOf (preMerge db1_experts db2_experts) := by
      intro n hn
      obtain ⟨e, he, rfl⟩ := List.mem_map.mp hn
      exact name_mem_namesOf_foldl_upsertDb2 _ _ _ he
    have hl1 : db1_experts.length ≤
        (preMerge db1_experts db2_experts).length := by
      have h := (hnd1.subperm hsub1).length_le
      simpa [length_namesOf] using h
    have hl2 : db2_experts.length ≤
        (preMerge db1_experts db2_experts).length := by
      have h := (hnd2.subperm hsub2).length_le
      simpa [length_namesOf] using h
    exact max_le hl1 hl2
  · have h2 := length_foldl_upsertDb2_le db2_experts
      (db1_experts.foldl upsertDb1 [])
    have h1 := length_foldl_upsertDb1_le db1_experts []
    simp only [preMerge]
    simp only [List.length_nil] at h1
    omega

/-- Witness for C2 amended at `db1 = [B]`, `db2 = [T]`: the output has
length 2, within `[max 1 1, 1 + 1]`. -/
theorem merge_length_bounds_nodup_witness :
    (["B"] : List String).Nodup ∧ (["T"] : List String).Nodup ∧
    (max 1 1 ≤
      (_merge_expert_results
        [(⟨"B", none, 3, [], [], [], "database_1"⟩ : Db1Expert)]
        [(⟨"T", [], 2, [], "database_2"⟩ : Db2Expert)]).length ∧
     (_merge_expert_results
        [(⟨"B", none, 3, [], [], [], "database_1"⟩ : Db1Expert)]
        [(⟨"T", [], 2, [], "database_2"⟩ : Db2Expert)]).length ≤ 1 + 1) :=
  ⟨by decide, by decide,
   (merge_length_bounds_nodup
     [(⟨"B", none, 3, [], [], [], "database_1"⟩ : Db1Expert)]
     [(⟨"T", [], 2, [], "database_2"⟩ : Db2Expert)]).1
     (by decide) (by decide),
   (merge_length_bounds_nodup
     [(⟨"B", none, 3, [], [], [], "database_1"⟩ : Db1Expert)]
     [(⟨"T", [], 2, [], "database_2"⟩ : Db2Expert)]).2⟩

/-- A JSON value, as produced by `response.json()` on line 55. -/
inductive JValue where
  | null
  | bool (b : Bool)
  | num (n : Int)
  | str (s : String)
  | arr (xs : List JValue)
  | obj (fields : List (String × JValue))

/-- Python subscript `v[key]` on a decoded JSON value: a dict lookup that
raises `KeyError` when the key is absent and `TypeError` when the value
is not a dict.  The `.error` string stands for the text of the raised
exception (the exact library wording is not part of the source). -/
def jGet (v : JValue) (key : String) : Except String JValue :=
  match v with
  | .obj fields =>
    match fields.find? (fun p => p.1 == key) with
    | some p => .ok p.2
    | none => .error ("KeyError: " ++ key)
  | _ => .error ("TypeError: value has no key " ++ key)

/-- Python subscript `v[i]` on a decoded JSON value: raises `IndexError`
when out of range and `TypeError` on a non-list. -/
def jIndex (v : JValue) (i : Nat) : Except String JValue :=
  match v with
  | .arr xs =>
    match xs[i]? with
    | some x => .ok x
    | none => .error "IndexError: list index out of range"
  | _ => .error "TypeError: value is not a list"

/-- The field extraction `result["choices"][0]["message"]["content"]`
performed on line 56; any step can raise, and the raise is caught by the
`except` clause of `ai_query`. -/
def extractContent (j : JValue) : Except String JValue := do
  let choices ← jGet j "choices"
  let c0 ← jIndex choices 0
  let msg ← jGet c0 "message"
  jGet msg "content"

/-- The string `ai_query` returns for the extracted content value.  The
expected shape is a JSON string, returned as itself; the untyped Python
code would pass a non-string value through unchanged despite the `str`
annotation, which a `String`-valued embedding renders as text. -/
def jText : JValue → String
  | .null => "None"
  | .bool true => "True"
  | .bool false => "False"
  | .num n => toString n
  | .str s => s
  | .arr xs =>
    "[" ++ String.intercalate ", " (xs.attach.map (fun x => jText x.1)) ++ "]"
  | .obj fs =>
    "\x7b" ++
      String.intercalate ", "
        (fs.attach.map (fun p => p.1.1 ++ ": " ++ jText p.1.2)) ++ "\x7d"
termination_by v => sizeOf v
decreasing_by
  · simp_wf
    have h := List.sizeOf_lt_of_mem x.2
    omega
  · simp_wf
    have h := List.sizeOf_lt_of_mem p.2
    obtain ⟨⟨a, b⟩, hp⟩ := p
    simp_all
    omega

/-- The outcome of the `requests.post` call on lines 52-53, as seen by
the surrounding `try`: either the call raised (connection error,
timeout), with `msg` the text of the exception, or it returned a
response carrying a status code and a body, where an `.error msg` body
means `response.json()` raises with message `msg`. -/
inductive PostOutcome where
  | exn (msg : String)
  | response (status : Nat) (body : Except String JValue)

/-- `ai_query` (lines 37-60).  The network boundary is the oracle
`post`; the body of the function — the status check, the JSON field
extraction and the `except` clause turning every raised error into the
tagged string `"AI Error: ..."` — is translated directly. -/
def ai_query (post : String → Nat → PostOutcome) (prompt : String)
    (max_tokens : Nat) : String :=
  match post prompt max_tokens with
  | .exn e => "AI Error: " ++ e
  | .response status body =>
    if status = 200 then
      match body >>= extractContent with
      | .ok content => jText content
      | .error e => "AI Error: " ++ e
    else
      "AI Error: " ++ toString status

/-- An affiliation entry of a database-1 researcher row (lines 106-112);
line 128 keeps only entries with a non-null organization, the other
fields may still be null. -/
structure Affiliation where
  organization : String
  role : Option String
  department : Option String
  start_year : Option Int
  end_year : Option Int
deriving DecidableEq

/-- A researcher row returned by `_get_researcher_profile_db1`
(lines 120-130).  The adapter runs an external Cypher query, so these
rows enter the model as inputs. -/
structure Db1Profile where
  name : Option String
  orcid_id : Option String
  given_names : Option String
  family_name : Option String
  orcid_publication_count : Option Int
  total_publications : Nat
  affiliations : List Affiliation
deriving DecidableEq

/-- A thesis-activity row returned by `_get_thesis_activities_db2`
(lines 152-161); `keywords` and `abstract` are defaulted to empty by the
adapter (`or []`, `or ""`). -/
structure Db2Activity where
  person_name : Option String
  role : String
  thesis_title : Option String
  thesis_type : Option String
  keywords : List String
  abstract : String
deriving DecidableEq

/-- JSON string-literal rendering used by the prompt serialization
(the common escapes of the `json.dumps` string escaper). -/
def jsonEscape (s : String) : String :=
  s.foldl (fun acc c =>
    if c = '"' then acc ++ "\\\""
    else if c = '\\' then acc ++ "\\\\"
    else if c = '\n' then acc ++ "\\n"
    else acc ++ String.singleton c) ""

def jsonStr (s : String) : String := "\"" ++ jsonEscape s ++ "\""

def jsonOptStr : Option String → String
  | none => "null"
  | some s => jsonStr s

def jsonOptInt : Option Int → String
  | none => "null"
  | some n => toString n

def jsonStrList (l : List String) : String :=
  "[" ++ String.intercalate ", " (l.map jsonStr) ++ "]"

/-- Serialization of one affiliation dict, keys in insertion order
(lines 106-112). -/
def jsonAffiliation (a : Affiliation) : String :=
  "\x7b\"organization\": " ++ jsonStr a.organization ++
  ", \"role\": " ++ jsonOptStr a.role ++
  ", \"department\": " ++ jsonOptStr a.department ++
  ", \"start_year\": " ++ jsonOptInt a.start_year ++
  ", \"end_year\": " ++ jsonOptInt a.end_year ++ "\x7d"

/-- Serialization of one db1 researcher row, keys in the insertion order
of lines 121-129.  The `json.dumps(..., indent=2)` whitespace layout is
abstracted to single-line JSON; the embedded data is the same. -/
def jsonDb1Profile (p : Db1Profile) : String :=
  "\x7b\"name\": " ++ jsonOptStr p.name ++
  ", \"orcid_id\": " ++ jsonOptStr p.orcid_id ++
  ", \"given_names\": " ++ jsonOptStr p.given_names ++
  ", \"family_name\": " ++ jsonOptStr p.family_name ++
  ", \"orcid_publication_count\": " ++ jsonOptInt p.orcid_publication_count ++
  ", \"total_publications\": " ++ toString p.total_publications ++
  ", \"affiliations\": [" ++
    String.intercalate ", " (p.affiliations.map jsonAffiliation) ++ "]\x7d"

def jsonDb1Profiles (l : List Db1Profile) : String :=
  "[" ++ String.intercalate ", " (l.map jsonDb1Profile) ++ "]"

/-- Serialization of one db2 thesis-activity row, keys in the insertion
order of lines 153-160. -/
def jsonDb2Activity (a : Db2Activity) : String :=
  "\x7b\"person_name\": " ++ jsonOptStr a.person_name ++
  ", \"role\": " ++ jsonStr a.role ++
  ", \"thesis_title\": " ++ jsonOptStr a.thesis_title ++
  ", \"thesis_type\": " ++ jsonOptStr a.thesis_type ++
  ", \"keywords\": " ++ jsonStrList a.keywords ++
  ", \"abstract\": " ++ jsonStr a.abstract ++ "\x7d"

def jsonDb2Activities (l : List Db2Activity) : String :=
  "[" ++ String.intercalate ", " (l.map jsonDb2Activity) ++ "]"

/-- Serialization of a key that is present only on some merged records:
absent keys (`none`) produce no output. -/
def jsonOptKey (key : String) (v : Option String) : String :=
  match v with
  | none => ""
  | some s => ", \"" ++ key ++ "\": " ++ s

/-- Serialization of one merged expert record for the ranking prompt:
only the keys present in the underlying dict are emitted. -/
def jsonMergedExpert (r : MergedExpert) : String :=
  "\x7b\"name\": " ++ jsonStr r.name ++
  jsonOptKey "orcid_id" (r.orcid_id.map jsonOptStr) ++
  jsonOptKey "relevant_publications" (r.relevant_publications.map toString) ++
  jsonOptKey "sample_publications" (r.sample_publications.map jsonStrList) ++
  jsonOptKey "organizations" (r.organizations.map jsonStrList) ++
  jsonOptKey "departments" (r.departments.map jsonStrList) ++
  jsonOptKey "roles" (r.roles.map jsonStrList) ++
  jsonOptKey "relevant_theses" (r.relevant_theses.map toString) ++
  jsonOptKey "sample_theses" (r.sample_theses.map jsonStrList) ++
  jsonOptKey "thesis_roles" (r.thesis_roles.map jsonStrList) ++
  ", \"source\": " ++ jsonStr r.source ++
  ", \"combined_score\": " ++ toString r.combined_score ++ "\x7d"

def jsonMergedExperts (l : List MergedExpert) : String :=
  "[" ++ String.intercalate ", " (l.map jsonMergedExpert) ++ "]"

/-- `_create_person_analysis_prompt` (lines 165-188): the f-string
template, with the two `json.dumps(..., indent=2)` interpolations
modelled by the serializers above.  Only the fields of `person_data`
that the template reads are parameters (`name`, `researcher_data`,
`thesis_data`). -/
def _create_person_analysis_prompt (name : String)
    (researcher_data : List Db1Profile) (thesis_data : List Db2Activity) :
    String :=
  "\n        Analyze this researcher profile and provide a comprehensive summary:\n\n        RESEARCHER: "
  ++ name ++
  "\n        \n        DATABASE 1 (Research Profile):\n        "
  ++ jsonDb1Profiles researcher_data ++
  "\n        \n        DATABASE 2 (Thesis Activities):  \n        "
  ++ jsonDb2Activities thesis_data ++
  "\n        \n        Please provide:\n        1. Research expertise areas (based on thesis topics, roles, publications)\n        2. Career progression summary (positions, institutions, timeline)\n        3. Academic involvement (supervision, examination, collaboration patterns)\n        4. Key strengths and specializations\n        5. Overall academic profile assessment\n        \n        Keep response concise but comprehensive (max 500 words).\n        "

/-- `_create_expert_ranking_prompt` (lines 321-338): the ranking
template over the merged expert list. -/
def _create_expert_ranking_prompt (topic : String)
    (experts : List MergedExpert) : String :=
  "\n        Rank and analyze these experts for the topic: \"" ++ topic ++
  "\"\n        \n        EXPERTS FOUND:\n        " ++
  jsonMergedExperts experts ++
  "\n        \n        Please provide:\n        1. Top 5 experts ranked by relevance to \"" ++ topic ++
  "\"\n        2. For each expert, explain why they\x27re qualified (publications, thesis work, roles)\n        3. Identify any collaboration patterns or research networks\n        4. Suggest which expert would be best for: media interviews, research collaboration, student supervision\n        \n        Format as a clear ranking with explanations.\n        "

/-- The combined result object built by `lookup_person` (lines 76-91). -/
structure LookupResult where
  name : String
  found_in_db1 : Bool
  found_in_db2 : Bool
  researcher_data : List Db1Profile
  thesis_data : List Db2Activity
  ai_analysis : String
deriving DecidableEq

/-- `lookup_person` (lines 62-91).  The two graph adapters run external
Cypher queries, so their result lists are the parameters `db1_profile`
and `db2_profile`; the LLM boundary is the oracle `post`.  The second
component counts the LLM requests the call performs (invocations of
`ai_query`), so that "zero calls to the LLM endpoint" is provable. -/
def lookup_person (post : String → Nat → PostOutcome) (name : String)
    (db1_profile : List Db1Profile) (db2_profile : List Db2Activity) :
    LookupResult × Nat :=
  let found_in_db1 := decide (db1_profile.length > 0)
  let found_in_db2 := decide (db2_profile.length > 0)
  if found_in_db1 || found_in_db2 then
    ({ name := name
       found_in_db1 := found_in_db1
       found_in_db2 := found_in_db2
       researcher_data := db1_profile
       thesis_data := db2_profile
       ai_analysis :=
         ai_query post
           (_create_person_analysis_prompt name db1_profile db2_profile)
           1000 }, 1)
  else
    ({ name := name
       found_in_db1 := found_in_db1
       found_in_db2 := found_in_db2
       researcher_data := db1_profile
       thesis_data := db2_profile
       ai_analysis := "Person not found in either database" }, 0)

/-- The result object built by `find_expert` (lines 213-220). -/
structure FindExpertResult where
  topic : String
  experts_found : Nat
  db1_matches : Nat
  db2_matches : Nat
  expert_list : List MergedExpert
  ai_ranking : String

/-- `find_expert` (lines 190-220): the two topic searches are external,
so their result lists are parameters; the merge, the choice between the
ranking request (token budget 1500) and the fixed no-experts message,
and the result assembly are translated directly. -/
def find_expert (post : String → Nat → PostOutcome) (topic : String)
    (db1_experts : List Db1Expert) (db2_experts : List Db2Expert) :
    FindExpertResult :=
  let all_experts := _merge_expert_results db1_experts db2_experts
  let ai_ranking :=
    if all_experts.length > 0 then
      ai_query post (_create_expert_ranking_prompt topic all_experts) 1500
    else
      "No experts found for topic: " ++ topic
  { topic := topic
    experts_found := all_experts.length
    db1_matches := db1_experts.length
    db2_matches := db2_experts.length
    expert_list := all_experts
    ai_ranking := ai_ranking }

/-- C6: for every name for which both graph adapters return empty lists,
`lookup_person` returns found_in_db1 = false, found_in_db2 = false and
the fixed not-found message, and performs zero LLM calls: lines 84-89
take the else branch, so `ai_query` is never invoked, whatever the LLM
oracle would do. -/
theorem lookup_person_not_found (post : String → Nat → PostOutcome)
    (name : String) :
    (lookup_person post name [] []).1.found_in_db1 = false ∧
    (lookup_person post name [] []).1.found_in_db2 = false ∧
    (lookup_person post name [] []).1.ai_analysis =
      "Person not found in either database" ∧
    (lookup_person post name [] []).2 = 0 :=
  ⟨rfl, rfl, rfl, rfl⟩

/-- C9: in every result object of `lookup_person`, found_in_db1 holds
exactly when researcher_data is nonempty and found_in_db2 exactly when
thesis_data is nonempty: lines 76-82 compute the flags from the lengths
of the very lists they store. -/
theorem lookup_person_found_flags_iff (post : String → Nat → PostOutcome)
    (name : String) (db1_profile : List Db1Profile)
    (db2_profile : List Db2Activity) :
    ((lookup_person post name db1_profile db2_profile).1.found_in_db1 = true ↔
      (lookup_person post name db1_profile db2_profile).1.researcher_data ≠ []) ∧
    ((lookup_person post name db1_profile db2_profile).1.found_in_db2 = true ↔
      (lookup_person post name db1_profile db2_profile).1.thesis_data ≠ []) := by
  simp only [lookup_person]
  split <;>
    simp [List.length_pos]

/-- C8: the result object of `find_expert` carries the topic, a total
count equal to the length of the merged list, per-database counts equal
to the lengths of the two search-result lists, the merged list itself,
and the AI ranking text (lines 213-220). -/
theorem find_expert_result_fields (post : String → Nat → PostOutcome)
    (topic : String) (db1_experts : List Db1Expert)
    (db2_experts : List Db2Expert) :
    (find_expert post topic db1_experts db2_experts).topic = topic ∧
    (find_expert post topic db1_experts db2_experts).experts_found =
      (_merge_expert_results db1_experts db2_experts).length ∧
    (find_expert post topic db1_experts db2_experts).db1_matches =
      db1_experts.length ∧
    (find_expert post topic db1_experts db2_experts).db2_matches =
      db2_experts.length ∧
    (find_expert post topic db1_experts db2_experts).expert_list =
      _merge_expert_results db1_experts db2_experts ∧
    (find_expert post topic db1_experts db2_experts).ai_ranking =
      (if (_merge_expert_results db1_experts db2_experts).length > 0 then
        ai_query post
          (_create_expert_ranking_prompt topic
            (_merge_expert_results db1_experts db2_experts)) 1500
      else "No experts found for topic: " ++ topic) :=
  ⟨rfl, rfl, rfl, rfl, rfl, rfl⟩

/-- C7: every failure of the LLM call — a raised transport error, a
non-200 status, or a body that fails to decode or lacks the expected
fields — makes `ai_query` return a string tagged `"AI Error: "` instead
of raising (lines 51-60), and `lookup_person` on populated data still
returns the database lists unchanged with `ai_analysis` set to exactly
the `ai_query` result (lines 84-91). -/
theorem ai_query_error_tagged (post : String → Nat → PostOutcome)
    (prompt : String) (max_tokens : Nat) :
    (∀ e, post prompt max_tokens = .exn e →
      ai_query post prompt max_tokens = "AI Error: " ++ e) ∧
    (∀ status body, post prompt max_tokens = .response status body →
      status ≠ 200 →
      ai_query post prompt max_tokens = "AI Error: " ++ toString status) ∧
    (∀ body e, post prompt max_tokens = .response 200 body →
      body >>= extractContent = .error e →
      ai_query post prompt max_tokens = "AI Error: " ++ e) ∧
    (∀ name db1_profile db2_profile,
      db1_profile ≠ ([] : List Db1Profile) ∨
        db2_profile ≠ ([] : List Db2Activity) →
      (lookup_person post name db1_profile db2_profile).1.researcher_data =
        db1_profile ∧
      (lookup_person post name db1_profile db2_profile).1.thesis_data =
        db2_profile ∧
      (lookup_person post name db1_profile db2_profile).1.ai_analysis =
        ai_query post
          (_create_person_analysis_prompt name db1_profile db2_profile)
          1000) := by
  refine ⟨?_, ?_, ?_, ?_⟩
  · intro e hp
    simp [ai_query, hp]
  · intro status body hp hs
    simp [ai_query, hp, hs]
  · intro body e hp hb
    simp [ai_query, hp, hb]
  · intro name db1_profile db2_profile hne
    have hcond : (decide (db1_profile.length > 0) ||
        decide (db2_profile.length > 0)) = true := by
      rcases hne with h | h
      · simp [List.length_pos, h]
      · simp [List.length_pos, h]
    simp [lookup_person, hcond]

/-- Witness for C7: an HTTP 500 response makes `ai_query` return the
tagged string `"AI Error: 500"`, and a `lookup_person` call with one
db1 row against the same failing endpoint still hands back that row with
`ai_analysis` equal to the `ai_query` result. -/
theorem ai_query_error_tagged_witness :
    (500 : Nat) ≠ 200 ∧
    ai_query (fun _ _ => PostOutcome.response 500 (Except.ok JValue.null))
      "p" 1000 = "AI Error: " ++ toString (500 : Nat) ∧
    ((⟨some "Anders", none, none, none, none, 0, []⟩ : Db1Profile) ::
        ([] : List Db1Profile) ≠ [] ∨ ([] : List Db2Activity) ≠ []) ∧
    (lookup_person (fun _ _ => PostOutcome.response 500 (Except.ok JValue.null))
        "Anders" [⟨some "Anders", none, none, none, none, 0, []⟩] []).1.researcher_data =
      [⟨some "Anders", none, none, none, none, 0, []⟩] ∧
    (lookup_person (fun _ _ => PostOutcome.response 500 (Except.ok JValue.null))
        "Anders" [⟨some "Anders", none, none, none, none, 0, []⟩] []).1.thesis_data = [] ∧
    (lookup_person (fun _ _ => PostOutcome.response 500 (Except.ok JValue.null))
        "Anders" [⟨some "Anders", none, none, none, none, 0, []⟩] []).1.ai_analysis =
      ai_query (fun _ _ => PostOutcome.response 500 (Except.ok JValue.null))
        (_create_person_analysis_prompt "Anders"
          [⟨some "Anders", none, none, none, none, 0, []⟩] []) 1000 := by
  refine ⟨by decide, ?_, Or.inl (by simp), ?_, ?_, ?_⟩
  · exact (ai_query_error_tagged
      (fun _ _ => PostOutcome.response 500 (Except.ok JValue.null))
      "p" 1000).2.1 500 (Except.ok JValue.null) rfl (by decide)
  · exact ((ai_query_error_tagged
      (fun _ _ => PostOutcome.response 500 (Except.ok JValue.null))
      (_create_person_analysis_prompt "Anders"
        [⟨some "Anders", none, none, none, none, 0, []⟩] []) 1000).2.2.2
      "Anders" [⟨some "Anders", none, none, none, none, 0, []⟩] []
      (Or.inl (by simp))).1
  · exact ((ai_query_error_tagged
      (fun _ _ => PostOutcome.response 500 (Except.ok JValue.null))
      (_create_person_analysis_prompt "Anders"
        [⟨some "Anders", none, none, none, none, 0, []⟩] []) 1000).2.2.2
      "Anders" [⟨some "Anders", none, none, none, none, 0, []⟩] []
      (Or.inl (by simp))).2.1
  · exact ((ai_query_error_tagged
      (fun _ _ => PostOutcome.response 500 (Except.ok JValue.null))
      (_create_person_analysis_prompt "Anders"
        [⟨some "Anders", none, none, none, none, 0, []⟩] []) 1000).2.2.2
      "Anders" [⟨some "Anders", none, none, none, none, 0, []⟩] []
      (Or.inl (by simp))).2.2

end ResearchBook
